import Mathlib

/-!
Verification of the Party-Proxy scrape-and-validate pipeline.

The definitions below are a shallow embedding of `party_proxy.py` and
`gui_proxy.py`: network responses are passed in explicitly as data
(`Option` encodes a raised exception as `none`), the thread pools are
linearised to completion order, and the cooperative cancellation flag is
modelled as the index of the first loop iteration that observes it.
-/

namespace PartyProxy

/-! ## Endpoint extractor

Model of `re.findall(r'\d{1,3}\.\d{1,3}\.\d{1,3}\.\d{1,3}:\d{2,5}', text)`
in `fetch_source` (party_proxy.py line 169): leftmost, non-overlapping
matches; each `\d{1,3}` is greedy with backtracking, which for this pattern
(every quantified group is followed by a non-digit literal or the end)
amounts to: the whole run of digits at that position must have the required
length and be followed by the required literal. -/

/-- Length of the leading run of decimal digits. -/
def digitRun : List Char → Nat
  | [] => 0
  | c :: cs => if c.isDigit then digitRun cs + 1 else 0

/-- Match `\d{1,3}` followed by the literal `sep`; returns the digits and
the remainder after the separator. Greedy matching of `\d{1,3}` before a
non-digit literal succeeds exactly when the whole digit run has length 1-3
and the next character is `sep`. -/
def matchOctet (sep : Char) (cs : List Char) : Option (List Char × List Char) :=
  let n := digitRun cs
  if 1 ≤ n ∧ n ≤ 3 then
    match cs.drop n with
    | c :: rest => if c = sep then some (cs.take n, rest) else none
    | [] => none
  else none

/-- Match `\d{2,5}` at the end of the pattern: greedy, no backtracking is
ever needed since nothing follows; takes `min 5 n` digits of a run of
`n ≥ 2`. -/
def matchPort (cs : List Char) : Option (List Char × List Char) :=
  let n := digitRun cs
  if 2 ≤ n then some (cs.take (min 5 n), cs.drop (min 5 n)) else none

/-- Match the full pattern `\d{1,3}\.\d{1,3}\.\d{1,3}\.\d{1,3}:\d{2,5}` at
the head of the character list; returns the matched characters and the
remainder. -/
def matchProxy (cs : List Char) : Option (List Char × List Char) :=
  match matchOctet '.' cs with
  | none => none
  | some (o1, r1) =>
    match matchOctet '.' r1 with
    | none => none
    | some (o2, r2) =>
      match matchOctet '.' r2 with
      | none => none
      | some (o3, r3) =>
        match matchOctet ':' r3 with
        | none => none
        | some (o4, r4) =>
          match matchPort r4 with
          | none => none
          | some (p, r5) =>
            some (o1 ++ '.' :: o2 ++ '.' :: o3 ++ '.' :: o4 ++ ':' :: p, r5)

/-- Worker for `findAll`: scan left to right; on a match continue after it
(non-overlapping), otherwise advance one character. The fuel is an upper
bound on the number of steps; each step consumes at least one character, so
the length of the input suffices. -/
def findAllAux : Nat → List Char → List String
  | 0, _ => []
  | _ + 1, [] => []
  | fuel + 1, c :: rest =>
    match matchProxy (c :: rest) with
    | some (m, r) => String.mk m :: findAllAux fuel r
    | none => findAllAux fuel rest

/-- Model of `re.findall(pattern, text)` for the proxy pattern. -/
def findAll (s : String) : List String :=
  findAllAux s.toList.length s.toList

/-- Endpoint extraction of one source text: `set(re.findall(pattern, text))`
(party_proxy.py line 169/171). -/
def extract (s : String) : Finset String :=
  (findAll s).toFinset

/-! ## Source fetcher and scrape orchestrator -/

/-- Outcome of `requests.get(source, timeout=30)`: `none` models a raised
transport exception, `some (code, body)` a response with its status code
and text. -/
abbrev SourceResp := Option (Nat × String)

/-- Model of the inner `fetch_source` closure of `scrape_proxies`
(party_proxy.py lines 162-176): an observed cancellation, a raised
exception, or a non-200 status each contribute the empty set; a 200
response contributes the set of extracted endpoints of its body. -/
def fetch_source (cancelled : Bool) (resp : SourceResp) : Finset String :=
  if cancelled then ∅
  else
    match resp with
    | some (code, body) => if code = 200 then extract body else ∅
    | none => ∅

/-- Whether a source fetch failed: a raised transport exception or a
non-200 response (party_proxy.py lines 168, 173-175). -/
def fetchFailed : SourceResp → Bool
  | none => true
  | some (code, _) => !(code == 200)

/-- Model of `ProxyManager.scrape_proxies` with no cancellation
(party_proxy.py lines 152-192), linearised to completion order: the
per-source results are unioned into one deduplicated accumulator set. -/
def scrape_proxies (responses : List SourceResp) : Finset String :=
  responses.foldl (fun acc r => acc ∪ fetch_source false r) ∅

/-- Membership in a fold of unions: the accumulated set holds exactly the
initial elements and every element of some per-item set. -/
theorem mem_foldl_union {α : Type} (f : α → Finset String) (l : List α)
    (init : Finset String) (p : String) :
    p ∈ l.foldl (fun acc r => acc ∪ f r) init ↔ p ∈ init ∨ ∃ r ∈ l, p ∈ f r := by
  induction l generalizing init with
  | nil => simp
  | cons a l ih =>
    simp only [List.foldl_cons, ih, Finset.mem_union, List.mem_cons]
    constructor
    · rintro (⟨h | h⟩ | ⟨r, hr, hp⟩)
      · exact Or.inl h
      · exact Or.inr ⟨a, Or.inl rfl, h⟩
      · exact Or.inr ⟨r, Or.inr hr, hp⟩
    · rintro (h | ⟨r, rfl | hr, hp⟩)
      · exact Or.inl (Or.inl h)
      · exact Or.inl (Or.inr hp)
      · exact Or.inr ⟨r, hr, hp⟩

/-! ## Geo lookup with cache -/

/-- The JSON body returned by the geolocation service, as read through
`data.get(...)`: every field may be absent. -/
structure GeoData where
  status : Option String
  country : Option String
  countryCode : Option String
  regionName : Option String
  city : Option String
  isp : Option String
  deriving DecidableEq

/-- A response of `requests.get("http://ip-api.com/json/" + ip, timeout=5)`:
status code and parsed body. A raised exception is `Option.none` at the
use site. -/
structure GeoResp where
  code : Nat
  data : GeoData
  deriving DecidableEq

/-- The info dict built by `get_geoip` (party_proxy.py lines 132-138). The
failure default (line 144) carries only `country` and `countryCode`, so the
remaining fields are optional: `some` when the dict has the key. -/
structure GeoInfo where
  country : String
  countryCode : String
  region : Option String
  city : Option String
  isp : Option String
  deriving DecidableEq

/-- The default returned by `get_geoip` on any failure (party_proxy.py
line 144): a dict with only `country` and `countryCode`. -/
def geoDefault : GeoInfo :=
  { country := "Unknown", countryCode := "??", region := none, city := none, isp := none }

/-- The `geoip_cache` dict, keyed by bare IP address; the head of the list
is the most recent insertion (a dict assignment shadows older entries under
`List.lookup`). -/
abbrev GeoCache := List (String × GeoInfo)

/-- Whether a geolocation response takes the success branch of `get_geoip`
(party_proxy.py lines 129-131): status code 200 and body status `success`.
A raised exception (`none`) is never a success. -/
def geoSuccess : Option GeoResp → Bool
  | none => false
  | some r => r.code == 200 && r.data.status == some "success"

/-- The info dict built from a successful response body (party_proxy.py
lines 132-138), with each `data.get` default. -/
def parseGeoInfo (gd : GeoData) : GeoInfo :=
  { country := gd.country.getD "Unknown"
    countryCode := gd.countryCode.getD "??"
    region := some (gd.regionName.getD "")
    city := some (gd.city.getD "")
    isp := some (gd.isp.getD "") }

/-- Model of `ProxyManager.get_geoip` (party_proxy.py lines 121-144).
Returns the info dict, the cache afterwards, and whether an outbound
lookup request was issued (the request happens exactly on a cache miss).
On a miss, a successful response is parsed, cached and returned; any other
outcome returns `geoDefault` and leaves the cache unchanged. -/
def get_geoip (cache : GeoCache) (ip : String) (resp : Option GeoResp) :
    GeoInfo × GeoCache × Bool :=
  match cache.lookup ip with
  | some info => (info, cache, false)
  | none =>
    if geoSuccess resp then
      match resp with
      | some r => (parseGeoInfo r.data, (ip, parseGeoInfo r.data) :: cache, true)
      | none => (geoDefault, cache, true)
    else (geoDefault, cache, true)

/-! ## Anonymity classifier -/

/-- The observable outcome of the `httpbin.org/get` echo probe: status code
and the echoed `Via` and `X-Forwarded-For` headers, each read through
`headers.get(name, '')` so an absent header is the empty string. A raised
exception is `Option.none` at the use site. -/
structure AnonResp where
  code : Nat
  via : String
  forwarded : String
  deriving DecidableEq

/-- Whether the first character list is an initial segment of the second. -/
def listStartsWith : List Char → List Char → Bool
  | [], _ => true
  | _ :: _, [] => false
  | a :: as, b :: bs => a == b && listStartsWith as bs

/-- Whether the needle occurs as a contiguous run inside the haystack. -/
def listContainsRun (needle : List Char) : List Char → Bool
  | [] => listStartsWith needle []
  | c :: cs => listStartsWith needle (c :: cs) || listContainsRun needle cs

/-- Whether `"proxy" in via.lower()` holds (party_proxy.py line 210):
the lowercased `Via` value contains the run `proxy`. -/
def hasProxyMarker (via : String) : Bool :=
  listContainsRun "proxy".toList (via.toList.map Char.toLower)

/-- Model of `ProxyManager.detect_anonymity` (party_proxy.py lines
194-216): on a 200 echo response, `Elite` when both headers are absent,
`Anonymous` when the forwarding chain carries a proxy marker or a
forwarded-for header is present, `Transparent` otherwise; any exception or
a non-200 response yields `Unknown`. -/
def detect_anonymity (resp : Option AnonResp) : String :=
  match resp with
  | none => "Unknown"
  | some r =>
    if r.code = 200 then
      if r.via = "" ∧ r.forwarded = "" then "Elite"
      else if hasProxyMarker r.via ∨ r.forwarded ≠ "" then "Anonymous"
      else "Transparent"
    else "Unknown"

/-! ## Endpoint validator -/

/-- The dict built by `check_proxy` for a working proxy (party_proxy.py
lines 246-254). -/
structure ProxyRecord where
  proxy : String
  latency : Nat
  status : String
  country : String
  countryCode : String
  privacy : String
  last_check : String
  deriving DecidableEq

/-- The bare address of an `address:port` endpoint: `proxy.split(':')[0]`
(party_proxy.py line 241). -/
def ipOf (proxy : String) : String :=
  (proxy.splitOn ":").headD ""

/-- Outcome of the connectivity probe `requests.get(CHECK_URL, ...)`:
`none` a raised exception, `some (code, latencyMs)` a response with its
status code and the measured wall-clock elapsed milliseconds. -/
abbrev ProbeResp := Option (Nat × Nat)

/-- Whether the connectivity probe succeeded: a response with status 200
(party_proxy.py line 239). -/
def probeOk : ProbeResp → Bool
  | some (code, _) => code == 200
  | none => false

/-- Model of `ProxyManager.check_proxy` (party_proxy.py lines 218-262):
`none` on a raised probe exception or a non-200 probe response; on a 200
response, a fully populated record enriched by the geo lookup (which may
read or extend the shared cache) and the anonymity classifier. Returns the
result and the geo cache afterwards. -/
def check_proxy (cache : GeoCache) (proxy : String) (probe : ProbeResp)
    (geoResp : Option GeoResp) (anonResp : Option AnonResp) (now : String) :
    Option ProxyRecord × GeoCache :=
  match probe with
  | none => (none, cache)
  | some (code, latency) =>
    if code = 200 then
      let g := get_geoip cache (ipOf proxy) geoResp
      (some { proxy := proxy
              latency := latency
              status := "active"
              country := g.1.country
              countryCode := g.1.countryCode
              privacy := detect_anonymity anonResp
              last_check := now }, g.2.1)
    else (none, cache)

/-! ## Validation orchestrator (`check_proxies_concurrent`) -/

/-- One validation task: the candidate endpoint together with the network
outcomes its `check_proxy` call observes. -/
structure CheckTask where
  proxy : String
  probe : ProbeResp
  geoResp : Option GeoResp
  anonResp : Option AnonResp
  now : String
  deriving DecidableEq

/-- Run `check_proxy` for one task against the shared geo cache. -/
def runTask (cache : GeoCache) (t : CheckTask) : Option ProxyRecord × GeoCache :=
  check_proxy cache t.proxy t.probe t.geoResp t.anonResp t.now

/-- The completion loop of `ProxyManager.check_proxies_concurrent`
(party_proxy.py lines 278-291), linearised to completion order: for each
completed task increment `checked`, append a successful result to
`working_proxies`, and invoke `callback(checked, total, result)`. Returns
the working list, the list of callback invocations, and the geo cache. -/
def runChecks (total : Nat) :
    GeoCache → Nat → List CheckTask →
    List ProxyRecord × List (Nat × Nat × Option ProxyRecord) × GeoCache
  | cache, _, [] => ([], [], cache)
  | cache, checked, t :: ts =>
    let r := runTask cache t
    let rest := runChecks total r.2 (checked + 1) ts
    (match r.1 with
     | some rec => rec :: rest.1
     | none => rest.1,
     (checked + 1, total, r.1) :: rest.2.1, rest.2.2)

/-- Model of `ProxyManager.check_proxies_concurrent` with no interruption
(party_proxy.py lines 264-297): tasks are given in completion order. -/
def check_proxies_concurrent (cache : GeoCache) (tasks : List CheckTask) :
    List ProxyRecord × List (Nat × Nat × Option ProxyRecord) × GeoCache :=
  runChecks tasks.length cache 0 tasks

/-! ## GUI workers (`gui_proxy.py`)

The cancellation flag `_is_running` is set to `False` once by `stop()` and
polled at the top of each completion iteration and once more before the
final emission. `cancelAt = some k` models a stop request that the polls
observe from checkpoint `k` onwards (iterations are checkpoints `0,1,...`,
the final `if self._is_running` is checkpoint `tasks.length`);
`cancelAt = none` a run that is never stopped. -/

/-- Whether `_is_running` still reads `True` at checkpoint `i`. -/
def isRunningAt : Option Nat → Nat → Bool
  | none, _ => true
  | some k, i => i < k

/-- The completion loop of `ProxyWorker.run` (gui_proxy.py lines 96-108):
before handling each completed future the flag is polled, and on
cancellation the loop breaks with the work accumulated so far; otherwise
`checked` is incremented, a successful result is appended, and
`progress(checked, total, result)` is emitted. Returns the accumulated
working list and the progress emissions. -/
def proxyWorkerLoop (cancelAt : Option Nat) (total : Nat) :
    Nat → GeoCache → List ProxyRecord → List CheckTask →
    List ProxyRecord × List (Nat × Nat × Option ProxyRecord)
  | _, _, working, [] => (working, [])
  | i, cache, working, t :: ts =>
    if isRunningAt cancelAt i then
      let r := runTask cache t
      let working2 := match r.1 with
        | some rec => working ++ [rec]
        | none => working
      let rest := proxyWorkerLoop cancelAt total (i + 1) r.2 working2 ts
      (rest.1, (i + 1, total, r.1) :: rest.2)
    else (working, [])

/-- The externally visible emissions of one `ProxyWorker.run`. -/
structure WorkerOut where
  progressEmissions : List (Nat × Nat × Option ProxyRecord)
  finishedEmissions : List (List ProxyRecord)
  deriving DecidableEq

/-- Model of `ProxyWorker.run` (gui_proxy.py lines 83-115): after the loop,
`finished(working_proxies)` is emitted only if the flag still reads `True`,
and the `finally` block then emits `finished([])` unconditionally. -/
def proxyWorkerRun (cache : GeoCache) (tasks : List CheckTask)
    (cancelAt : Option Nat) : WorkerOut :=
  let r := proxyWorkerLoop cancelAt tasks.length 0 cache [] tasks
  { progressEmissions := r.2
    finishedEmissions :=
      (if isRunningAt cancelAt tasks.length then [r.1] else []) ++ [[]] }

/-- The externally visible emissions of one `ScrapeWorker.run`. -/
structure ScrapeOut where
  scrapedEmissions : List (Finset String)
  finishedEmissions : List (List ProxyRecord)
  deriving DecidableEq

/-- Model of `ScrapeWorker.run` (gui_proxy.py lines 53-65): the scraped set
is emitted when nonempty, and the `finally` block emits `finished([])`
exactly once. -/
def scrapeWorkerRun (responses : List SourceResp) : ScrapeOut :=
  let raw := scrape_proxies responses
  { scrapedEmissions := if raw = ∅ then [] else [raw]
    finishedEmissions := [[]] }

/-! ## Result store (`save_proxies`) -/

/-- Model of `ProxyManager.save_proxies` (party_proxy.py lines 299-310):
`working_proxies.sort(key=lambda x: x['proxy'])` mutates the caller's list
in place, then one line per record holding its endpoint string is written.
Returns the post-state of the caller's list and the written lines. -/
def save_proxies (working : List ProxyRecord) : List ProxyRecord × List String :=
  let sorted := working.insertionSort (fun a b => a.proxy ≤ b.proxy)
  (sorted, sorted.map (fun r => r.proxy))

/-! ## Two overlapping geo lookups

Small-step model of two threads running `get_geoip` on the same address:
the cache check (party_proxy.py line 123) and the outbound
request-and-insert (lines 128-140) are separate steps, interleaved by a
schedule; dict reads and writes are individually atomic (an insert is one
whole step), matching CPython, but no lock spans the check and the
insert. -/

/-- The control state of one thread running `get_geoip`: program counter
(0 = about to check the cache, 1 = missed and about to issue the request,
2 = returned), its result once returned, and whether it issued an outbound
request. -/
structure GeoThread where
  pc : Nat
  result : Option GeoInfo
  requested : Bool
  deriving DecidableEq

/-- One step of a thread looking up `ip` whose outbound request, if issued,
observes `resp`. -/
def geoThreadStep (ip : String) (resp : Option GeoResp) (cache : GeoCache)
    (t : GeoThread) : GeoCache × GeoThread :=
  match t.pc with
  | 0 =>
    match cache.lookup ip with
    | some info => (cache, { pc := 2, result := some info, requested := false })
    | none => (cache, { t with pc := 1 })
  | 1 =>
    if geoSuccess resp then
      match resp with
      | some r =>
        ((ip, parseGeoInfo r.data) :: cache,
         { pc := 2, result := some (parseGeoInfo r.data), requested := true })
      | none => (cache, { pc := 2, result := some geoDefault, requested := true })
    else (cache, { pc := 2, result := some geoDefault, requested := true })
  | _ => (cache, t)

/-- The state of the two-thread system: the shared cache and both
threads. -/
structure GeoSys where
  cache : GeoCache
  t0 : GeoThread
  t1 : GeoThread
  deriving DecidableEq

/-- Run the step of the scheduled thread (`false` = thread 0). -/
def geoSysStep (ip : String) (resp0 resp1 : Option GeoResp) (s : GeoSys)
    (tid : Bool) : GeoSys :=
  if tid then
    let r := geoThreadStep ip resp1 s.cache s.t1
    { cache := r.1, t0 := s.t0, t1 := r.2 }
  else
    let r := geoThreadStep ip resp0 s.cache s.t0
    { cache := r.1, t0 := r.2, t1 := s.t1 }

/-- Run a schedule of thread steps. -/
def geoSysRun (ip : String) (resp0 resp1 : Option GeoResp)
    (sched : List Bool) (s : GeoSys) : GeoSys :=
  sched.foldl (geoSysStep ip resp0 resp1) s

/-- Both threads poised to look up, over a given cache. -/
def geoSysInit (cache : GeoCache) : GeoSys :=
  { cache := cache
    t0 := { pc := 0, result := none, requested := false }
    t1 := { pc := 0, result := none, requested := false } }

/-! ## Concrete sample inputs -/

/-- A candidate whose connectivity probe returns 200 in 120 ms and whose
two enrichment probes both raise. -/
def sampleTaskOk : CheckTask :=
  { proxy := "10.0.0.1:8080", probe := some (200, 120), geoResp := none,
    anonResp := none, now := "2026-01-01T00:00:00" }

/-- A candidate whose connectivity probe raises (for example times out). -/
def sampleTaskFail : CheckTask :=
  { proxy := "10.0.0.2:8080", probe := none, geoResp := none,
    anonResp := none, now := "2026-01-01T00:00:00" }

/-- The record `check_proxy` builds for `sampleTaskOk` over an empty geo
cache. -/
def sampleRecordOk : ProxyRecord :=
  { proxy := "10.0.0.1:8080", latency := 120, status := "active",
    country := "Unknown", countryCode := "??", privacy := "Unknown",
    last_check := "2026-01-01T00:00:00" }

/-- A successful geolocation response body. -/
def sampleGeoData : GeoData :=
  { status := some "success", country := some "Testland",
    countryCode := some "TL", regionName := none, city := none, isp := none }

/-- A successful geolocation response. -/
def sampleGeoResp : GeoResp :=
  { code := 200, data := sampleGeoData }

/-- A validated record with the lexicographically smaller endpoint. -/
def sampleRecordA : ProxyRecord :=
  { proxy := "1.1.1.1:80", latency := 50, status := "active",
    country := "Testland", countryCode := "TL", privacy := "Elite",
    last_check := "2026-01-01T00:00:00" }

/-- A validated record with the lexicographically larger endpoint. -/
def sampleRecordB : ProxyRecord :=
  { proxy := "2.2.2.2:80", latency := 70, status := "active",
    country := "Testland", countryCode := "TL", privacy := "Elite",
    last_check := "2026-01-01T00:00:00" }

/-! ## Ordering instances for `save_proxies` -/

instance : DecidableRel (fun a b : ProxyRecord => a.proxy ≤ b.proxy) :=
  fun a b => inferInstanceAs (Decidable (a.proxy ≤ b.proxy))

instance : IsTotal ProxyRecord (fun a b => a.proxy ≤ b.proxy) :=
  ⟨fun a b => le_total a.proxy b.proxy⟩

instance : IsTrans ProxyRecord (fun a b => a.proxy ≤ b.proxy) :=
  ⟨fun _ _ _ hab hbc => le_trans hab hbc⟩

/-! ## Claim theorems -/

/-- C1: a scrape over sources whose fetched texts all arrive with status
200 and no cancellation returns exactly the union of the per-source
extraction results, as a deduplicated set (order-independently: membership
is characterised by membership in some source's extraction); in the
concrete scenario the endpoint appearing in both texts appears once and
the result has exactly two elements. -/
theorem C1_scrape_is_union :
    (∀ (texts : List String) (p : String),
        p ∈ scrape_proxies (texts.map (fun t => some (200, t))) ↔
          ∃ t ∈ texts, p ∈ extract t) ∧
    scrape_proxies [some (200, "1.2.3.4:8080 abc"),
        some (200, "9.9.9.9:3128 1.2.3.4:8080")] =
      {"1.2.3.4:8080", "9.9.9.9:3128"} ∧
    (scrape_proxies [some (200, "1.2.3.4:8080 abc"),
        some (200, "9.9.9.9:3128 1.2.3.4:8080")]).card = 2 ∧
    "1.2.3.4:8080" ∈ extract "1.2.3.4:8080 abc" ∧
    "1.2.3.4:8080" ∈ extract "9.9.9.9:3128 1.2.3.4:8080" := by
  refine ⟨?_, by decide, by decide, by decide, by decide⟩
  intro texts p
  rw [scrape_proxies, mem_foldl_union]
  simp [fetch_source]

/-- C9: a source whose fetch raises or returns a non-200 status
contributes zero endpoints, and the scrape over the remaining sources is
unchanged — a single bad source never alters (in particular never aborts)
the run. -/
theorem C9_bad_source_contained (rs1 rs2 : List SourceResp) (r : SourceResp)
    (h : fetchFailed r = true) :
    scrape_proxies (rs1 ++ r :: rs2) = scrape_proxies (rs1 ++ rs2) := by
  have hempty : fetch_source false r = ∅ := by
    match r with
    | none => rfl
    | some (code, body) =>
      simp only [fetchFailed, Bool.not_eq_true', beq_eq_false_iff_ne, ne_eq] at h
      simp [fetch_source, h]
  ext p
  rw [scrape_proxies, scrape_proxies, mem_foldl_union, mem_foldl_union]
  simp only [Finset.not_mem_empty, false_or, List.mem_append, List.mem_cons]
  constructor
  · rintro ⟨s, hs1 | rfl | hs2, hp⟩
    · exact ⟨s, Or.inl hs1, hp⟩
    · rw [hempty] at hp
      exact absurd hp (Finset.not_mem_empty p)
    · exact ⟨s, Or.inr hs2, hp⟩
  · rintro ⟨s, hs1 | hs2, hp⟩
    · exact ⟨s, Or.inl hs1, hp⟩
    · exact ⟨s, Or.inr (Or.inr hs2), hp⟩

/-- C9 witness: a 500 response contributes nothing to a concrete scrape. -/
theorem C9_bad_source_contained_witness :
    fetchFailed (some (500, "5.5.5.5:80")) = true ∧
    scrape_proxies [some (200, "1.2.3.4:8080 abc"), some (500, "5.5.5.5:80")] =
      scrape_proxies [some (200, "1.2.3.4:8080 abc")] :=
  ⟨by decide,
   C9_bad_source_contained [some (200, "1.2.3.4:8080 abc")] []
     (some (500, "5.5.5.5:80")) (by decide)⟩

/-- C2: `check_proxy` returns `none` exactly when the connectivity probe
raises or answers with a non-200 status (no retry is modelled: one probe
outcome decides the call); on a 200 answer it returns one fully populated
record whose fields are the endpoint, the measured latency, status
`active`, the geo lookup's country data, the classifier's privacy level
and the timestamp; and a failing geo lookup (cache miss and unsuccessful
response) or a failing anonymity probe still yields the record, with
`Unknown`/`??`/`Unknown` in the respective fields. -/
theorem C2_check_proxy_total (cache : GeoCache) (proxy : String)
    (probe : ProbeResp) (geoResp : Option GeoResp) (anonResp : Option AnonResp)
    (now : String) :
    ((check_proxy cache proxy probe geoResp anonResp now).1 = none ↔
      probeOk probe = false) ∧
    (∀ lat, probe = some (200, lat) →
      check_proxy cache proxy probe geoResp anonResp now =
        (some { proxy := proxy, latency := lat, status := "active",
                country := (get_geoip cache (ipOf proxy) geoResp).1.country,
                countryCode := (get_geoip cache (ipOf proxy) geoResp).1.countryCode,
                privacy := detect_anonymity anonResp, last_check := now },
         (get_geoip cache (ipOf proxy) geoResp).2.1)) ∧
    (∀ lat, probe = some (200, lat) → cache.lookup (ipOf proxy) = none →
      geoSuccess geoResp = false →
      ∃ rec, (check_proxy cache proxy probe geoResp anonResp now).1 = some rec ∧
        rec.country = "Unknown" ∧ rec.countryCode = "??") ∧
    (∀ lat, probe = some (200, lat) → anonResp = none →
      ∃ rec, (check_proxy cache proxy probe geoResp anonResp now).1 = some rec ∧
        rec.privacy = "Unknown") := by
  refine ⟨?_, ?_, ?_, ?_⟩
  · match probe with
    | none => simp [check_proxy, probeOk]
    | some (code, lat) =>
      by_cases hc : code = 200 <;> simp [check_proxy, probeOk, hc]
  · rintro lat rfl
    simp [check_proxy]
  · rintro lat rfl hmiss hfail
    refine ⟨{ proxy := proxy, latency := lat, status := "active",
              country := (get_geoip cache (ipOf proxy) geoResp).1.country,
              countryCode := (get_geoip cache (ipOf proxy) geoResp).1.countryCode,
              privacy := detect_anonymity anonResp, last_check := now },
            by simp [check_proxy], ?_, ?_⟩ <;>
      simp [get_geoip, hmiss, hfail, geoDefault]
  · rintro lat rfl rfl
    exact ⟨{ proxy := proxy, latency := lat, status := "active",
             country := (get_geoip cache (ipOf proxy) geoResp).1.country,
             countryCode := (get_geoip cache (ipOf proxy) geoResp).1.countryCode,
             privacy := detect_anonymity none, last_check := now },
           by simp [check_proxy], by simp [detect_anonymity]⟩

/-- C2 witness: for the concrete sample task over the empty cache, a
raised probe yields `none` and a 200 probe with both enrichments raising
yields the fully populated default-enriched record. -/
theorem C2_check_proxy_total_witness :
    ((check_proxy [] "10.0.0.2:8080" none none none "2026-01-01T00:00:00").1 =
        none ↔ probeOk none = false) ∧
    check_proxy [] "10.0.0.1:8080" (some (200, 120)) none none
        "2026-01-01T00:00:00" = (some sampleRecordOk, []) :=
  ⟨(C2_check_proxy_total [] "10.0.0.2:8080" none none none
      "2026-01-01T00:00:00").1,
   (C2_check_proxy_total [] "10.0.0.1:8080" (some (200, 120)) none none
      "2026-01-01T00:00:00").2.1 120 rfl⟩

/-- C6: the geo lookup checks the cache first and a hit is returned as-is
with no outbound request and no cache change; on a miss a request is
issued; a successful lookup is stored under the address and returned; any
failure returns the `Unknown`/`??` default without caching it, so a second
lookup of the same address after a failure again misses and issues a fresh
outbound request. -/
theorem C6_geo_cache_policy (cache : GeoCache) (ip : String)
    (resp : Option GeoResp) :
    (∀ info, cache.lookup ip = some info →
      get_geoip cache ip resp = (info, cache, false)) ∧
    (cache.lookup ip = none →
      (get_geoip cache ip resp).2.2 = true ∧
      (geoSuccess resp = true →
        (get_geoip cache ip resp).2.1.lookup ip =
          some (get_geoip cache ip resp).1) ∧
      (geoSuccess resp = false →
        get_geoip cache ip resp = (geoDefault, cache, true) ∧
        ∀ resp2, (get_geoip (get_geoip cache ip resp).2.1 ip resp2).2.2 = true)) := by
  constructor
  · intro info hinfo
    simp [get_geoip, hinfo]
  · intro hmiss
    refine ⟨?_, ?_, ?_⟩
    · cases hgs : geoSuccess resp with
      | true =>
        match resp with
        | none => simp [geoSuccess] at hgs
        | some r => simp [get_geoip, hmiss, hgs]
      | false => simp [get_geoip, hmiss, hgs]
    · intro hs
      match resp with
      | none => simp [geoSuccess] at hs
      | some r => simp [get_geoip, hmiss, hs, List.lookup]
    · intro hs
      have hres : get_geoip cache ip resp = (geoDefault, cache, true) := by
        match resp with
        | none => simp [get_geoip, hmiss, geoSuccess]
        | some r => simp [get_geoip, hmiss, hs]
      refine ⟨hres, fun resp2 => ?_⟩
      rw [hres]
      cases hgs2 : geoSuccess resp2 with
      | true =>
        match resp2 with
        | none => simp [geoSuccess] at hgs2
        | some r2 => simp [get_geoip, hmiss, hgs2]
      | false => simp [get_geoip, hmiss, hgs2]

/-- C8: the anonymity classifier returns `Elite` on a 200 echo whose `Via`
and `X-Forwarded-For` headers are both absent, `Anonymous` when the `Via`
value contains the proxy marker or a forwarded-for value is present,
`Transparent` on the remaining 200 echoes, and `Unknown` whenever the
probe raises (or the echo is not a 200). -/
theorem C8_anonymity_classification :
    detect_anonymity none = "Unknown" ∧
    (∀ r : AnonResp, r.code ≠ 200 → detect_anonymity (some r) = "Unknown") ∧
    (∀ r : AnonResp, r.code = 200 → r.via = "" → r.forwarded = "" →
      detect_anonymity (some r) = "Elite") ∧
    (∀ r : AnonResp, r.code = 200 →
      (hasProxyMarker r.via = true ∨ r.forwarded ≠ "") →
      detect_anonymity (some r) = "Anonymous") ∧
    (∀ r : AnonResp, r.code = 200 → hasProxyMarker r.via = false →
      r.forwarded = "" → r.via ≠ "" →
      detect_anonymity (some r) = "Transparent") := by
  refine ⟨rfl, ?_, ?_, ?_, ?_⟩
  · intro r hc
    simp [detect_anonymity, hc]
  · intro r hc hv hf
    simp [detect_anonymity, hc, hv, hf]
  · intro r hc hcond
    have hne : ¬(r.via = "" ∧ r.forwarded = "") := by
      rintro ⟨hv, hf⟩
      rcases hcond with hm | hfwd
      · rw [hv] at hm
        exact absurd hm (by decide)
      · exact hfwd hf
    simp [detect_anonymity, hc, hne, hcond]
  · intro r hc hm hf hv
    have hne : ¬(r.via = "" ∧ r.forwarded = "") := fun h => hv h.1
    have hcond : ¬(hasProxyMarker r.via = true ∨ r.forwarded ≠ "") := by
      rintro (h | h)
      · rw [hm] at h
        exact absurd h (by decide)
      · exact h hf
    simp [detect_anonymity, hc, hne, hcond]

/-- The result of one validation task is `none` exactly when its probe
raised or answered non-200. -/
theorem runTask_none_iff (cache : GeoCache) (t : CheckTask) :
    (runTask cache t).1 = none ↔ probeOk t.probe = false := by
  match h : t.probe with
  | none => simp [runTask, check_proxy, h, probeOk]
  | some (code, lat) =>
    by_cases hc : code = 200 <;> simp [runTask, check_proxy, h, probeOk, hc]

/-- A record produced by one validation task carries that task's endpoint,
and the task's probe succeeded. -/
theorem runTask_some (cache : GeoCache) (t : CheckTask) (rec : ProxyRecord)
    (h : (runTask cache t).1 = some rec) :
    rec.proxy = t.proxy ∧ probeOk t.probe = true := by
  match hp : t.probe with
  | none => simp [runTask, check_proxy, hp] at h
  | some (code, lat) =>
    by_cases hc : code = 200
    · simp [runTask, check_proxy, hp, hc] at h
      refine ⟨?_, by simp [probeOk, hp, hc]⟩
      rw [← h]
    · simp [runTask, check_proxy, hp, hc] at h

/-- Behaviour of the completion loop of `check_proxies_concurrent` for any
starting cache and checked count: one callback per task, the `i`-th with
cumulative count `checked + i + 1`, the fixed total, and that task's
result (null exactly on probe failure, otherwise a record for that task's
endpoint); the working list holds only records of tasks whose probe
succeeded. -/
theorem runChecks_spec (total : Nat) (tasks : List CheckTask) :
    ∀ (cache : GeoCache) (checked : Nat),
      (runChecks total cache checked tasks).2.1.length = tasks.length ∧
      (∀ i t, tasks[i]? = some t →
        ∃ o, (runChecks total cache checked tasks).2.1[i]? =
            some (checked + i + 1, total, o) ∧
          (o = none ↔ probeOk t.probe = false) ∧
          (∀ rec, o = some rec → rec.proxy = t.proxy)) ∧
      (∀ rec ∈ (runChecks total cache checked tasks).1,
        ∃ t ∈ tasks, rec.proxy = t.proxy ∧ probeOk t.probe = true) := by
  induction tasks with
  | nil =>
    intro cache checked
    refine ⟨rfl, ?_, ?_⟩ <;> simp [runChecks]
  | cons t ts ih =>
    intro cache checked
    obtain ⟨ih1, ih2, ih3⟩ := ih (runTask cache t).2 (checked + 1)
    refine ⟨by simp [runChecks, ih1], ?_, ?_⟩
    · intro i t' ht'
      match i with
      | 0 =>
        simp only [List.getElem?_cons_zero, Option.some.injEq] at ht'
        subst ht'
        exact ⟨(runTask cache t).1, by simp [runChecks],
          runTask_none_iff cache t,
          fun rec hrec => (runTask_some cache t rec hrec).1⟩
      | i + 1 =>
        simp only [List.getElem?_cons_succ] at ht'
        obtain ⟨o, ho, hiff⟩ := ih2 i t' ht'
        refine ⟨o, ?_, hiff⟩
        have harith : checked + 1 + i + 1 = checked + (i + 1) + 1 := by omega
        simpa [runChecks, harith] using ho
    · intro rec hrec
      rcases hr : (runTask cache t).1 with _ | rec0
      · simp only [runChecks, hr] at hrec
        obtain ⟨t', ht', hre⟩ := ih3 rec hrec
        exact ⟨t', List.mem_cons_of_mem t ht', hre⟩
      · simp only [runChecks, hr, List.mem_cons] at hrec
        rcases hrec with rfl | hrec
        · exact ⟨t, List.mem_cons_self t ts, runTask_some cache t rec hr⟩
        · obtain ⟨t', ht', hre⟩ := ih3 rec hrec
          exact ⟨t', List.mem_cons_of_mem t ht', hre⟩

/-- C3: `check_proxies_concurrent` invokes the callback exactly once per
completed task — the `i`-th invocation with cumulative count `i + 1`, the
total count, and that task's result-or-null —; a task whose probe fails
contributes null to its callback and no record to the returned list (every
returned record belongs to a task whose probe succeeded); and the empty
candidate set yields the empty list, zero callbacks and an unchanged
cache. -/
theorem C3_callback_per_task (cache : GeoCache) (tasks : List CheckTask) :
    (check_proxies_concurrent cache tasks).2.1.length = tasks.length ∧
    (∀ i t, tasks[i]? = some t →
      ∃ o, (check_proxies_concurrent cache tasks).2.1[i]? =
          some (i + 1, tasks.length, o) ∧
        (o = none ↔ probeOk t.probe = false) ∧
        (∀ rec, o = some rec → rec.proxy = t.proxy)) ∧
    (∀ rec ∈ (check_proxies_concurrent cache tasks).1,
      ∃ t ∈ tasks, rec.proxy = t.proxy ∧ probeOk t.probe = true) ∧
    check_proxies_concurrent cache [] = ([], [], cache) := by
  obtain ⟨h1, h2, h3⟩ := runChecks_spec tasks.length tasks cache 0
  refine ⟨h1, ?_, h3, rfl⟩
  intro i t ht
  obtain ⟨o, ho, hiff⟩ := h2 i t ht
  exact ⟨o, by simpa using ho, hiff⟩

/-- Number of progress emissions of the `ProxyWorker` loop when the stop
flag becomes visible at checkpoint `k`: one per iteration strictly before
`k`, and none from `k` on. -/
theorem proxyWorkerLoop_length (k total : Nat) (ts : List CheckTask) :
    ∀ (i : Nat) (cache : GeoCache) (working : List ProxyRecord),
      (proxyWorkerLoop (some k) total i cache working ts).2.length =
        min (k - i) ts.length := by
  induction ts with
  | nil =>
    intro i cache working
    simp [proxyWorkerLoop]
  | cons t ts ih =>
    intro i cache working
    by_cases hik : i < k
    · have hrun : isRunningAt (some k) i = true := by
        simpa [isRunningAt] using hik
      simp only [proxyWorkerLoop, hrun, if_true, List.length_cons, ih]
      omega
    · have hrun : isRunningAt (some k) i = false := by
        simpa [isRunningAt] using hik
      simp only [proxyWorkerLoop, hrun, Bool.false_eq_true, if_false,
        List.length_nil]
      omega

/-- C4 counterexample: one candidate validates successfully (its progress
emission carries its record) before cancellation is observed at the next
checkpoint, yet the worker's terminal emission is the empty list — the
completed record is not delivered, refuting delivery of exactly the
completed records. -/
theorem C4_counterexample_partial_discarded :
    (proxyWorkerRun [] [sampleTaskOk] (some 1)).progressEmissions =
      [(1, 1, some sampleRecordOk)] ∧
    (proxyWorkerRun [] [sampleTaskOk] (some 1)).finishedEmissions = [[]] ∧
    (∀ l ∈ (proxyWorkerRun [] [sampleTaskOk] (some 1)).finishedEmissions,
      sampleRecordOk ∉ l) := by
  refine ⟨by decide, by decide, by decide⟩

/-- C4 amended: when the stop flag becomes visible at checkpoint
`k ≤ tasks.length`, the worker stops processing further completions (it
emits exactly `k` progress events) and its terminal emission is the empty
list: the records completed before cancellation are discarded rather than
delivered, and in particular no record of an in-flight, uncompleted
validation is delivered. -/
theorem C4_amended_cancel_discards (cache : GeoCache) (tasks : List CheckTask)
    (k : Nat) (h : k ≤ tasks.length) :
    (proxyWorkerRun cache tasks (some k)).finishedEmissions = [[]] ∧
    (proxyWorkerRun cache tasks (some k)).progressEmissions.length = k := by
  constructor
  · have hrun : isRunningAt (some k) tasks.length = false := by
      simp [isRunningAt]
      omega
    simp [proxyWorkerRun, hrun]
  · have := proxyWorkerLoop_length k tasks.length tasks 0 cache []
    simp only [proxyWorkerRun]
    rw [this]
    omega

/-- C4 amended witness: the concrete cancelled run of one successful task
delivers the empty list after a single progress emission. -/
theorem C4_amended_cancel_discards_witness :
    (proxyWorkerRun [] [sampleTaskOk, sampleTaskFail] (some 1)).finishedEmissions =
      [[]] ∧
    (proxyWorkerRun [] [sampleTaskOk, sampleTaskFail] (some 1)).progressEmissions.length =
      1 :=
  C4_amended_cancel_discards [] [sampleTaskOk, sampleTaskFail] 1 (by decide)

/-- C5: on a successful, uncancelled run, `ProxyWorker.run` emits the
terminal `finished` event twice — once with the accumulated records from
the success branch and once more with the empty list from the `finally`
block — refuting exactly-once delivery; `ScrapeWorker.run` emits its
terminal event exactly once on every run. -/
theorem C5_terminal_event_twice :
    (proxyWorkerRun [] [sampleTaskOk] none).finishedEmissions =
      [[sampleRecordOk], []] ∧
    (proxyWorkerRun [] [sampleTaskOk] none).finishedEmissions.length = 2 ∧
    (∀ rs : List SourceResp, (scrapeWorkerRun rs).finishedEmissions.length = 1) := by
  exact ⟨by decide, by decide, fun rs => rfl⟩

/-- One step of a geo-lookup thread either leaves the shared cache
unchanged or prepends one complete entry keyed by the looked-up
address. -/
theorem geoThreadStep_cache (ip : String) (resp : Option GeoResp)
    (cache : GeoCache) (t : GeoThread) :
    (geoThreadStep ip resp cache t).1 = cache ∨
    ∃ info, (geoThreadStep ip resp cache t).1 = (ip, info) :: cache := by
  rcases t with ⟨pc, result, requested⟩
  match pc with
  | 0 =>
    simp only [geoThreadStep]
    cases cache.lookup ip <;> simp
  | 1 =>
    simp only [geoThreadStep]
    cases hgs : geoSuccess resp with
    | true =>
      match resp with
      | none => simp [geoSuccess] at hgs
      | some r => exact Or.inr ⟨parseGeoInfo r.data, by simp⟩
    | false => simp
  | n + 2 => simp [geoThreadStep]

/-- One scheduled system step either leaves the shared cache unchanged or
prepends one complete entry keyed by the looked-up address. -/
theorem geoSysStep_cache (ip : String) (resp0 resp1 : Option GeoResp)
    (s : GeoSys) (tid : Bool) :
    (geoSysStep ip resp0 resp1 s tid).cache = s.cache ∨
    ∃ info, (geoSysStep ip resp0 resp1 s tid).cache = (ip, info) :: s.cache := by
  cases tid with
  | false => simpa [geoSysStep] using geoThreadStep_cache ip resp0 s.cache s.t0
  | true => simpa [geoSysStep] using geoThreadStep_cache ip resp1 s.cache s.t1

/-- The geo cache is append-only under any schedule of the two threads:
the starting cache is a suffix of the final one. -/
theorem geoSysRun_append_only (ip : String) (resp0 resp1 : Option GeoResp)
    (sched : List Bool) :
    ∀ s : GeoSys, s.cache <:+ (geoSysRun ip resp0 resp1 sched s).cache := by
  induction sched with
  | nil => intro s; exact List.suffix_refl _
  | cons b bs ih =>
    intro s
    have h1 : s.cache <:+ (geoSysStep ip resp0 resp1 s b).cache := by
      rcases geoSysStep_cache ip resp0 resp1 s b with h | ⟨info, h⟩
      · rw [h]
      · rw [h]
        exact List.suffix_cons (ip, info) s.cache
    have h2 := ih (geoSysStep ip resp0 resp1 s b)
    exact h1.trans (by simpa [geoSysRun] using h2)

/-- Every cache entry present after any schedule was either already there
or is a whole entry for the looked-up address. -/
theorem geoSysRun_entries (ip : String) (resp0 resp1 : Option GeoResp)
    (sched : List Bool) :
    ∀ (s : GeoSys) (p : String × GeoInfo),
      p ∈ (geoSysRun ip resp0 resp1 sched s).cache → p ∈ s.cache ∨ p.1 = ip := by
  induction sched with
  | nil => intro s p hp; exact Or.inl hp
  | cons b bs ih =>
    intro s p hp
    have hp2 : p ∈ (geoSysStep ip resp0 resp1 s b).cache ∨ p.1 = ip := by
      apply ih (geoSysStep ip resp0 resp1 s b)
      simpa [geoSysRun] using hp
    rcases hp2 with hp2 | hp2
    · rcases geoSysStep_cache ip resp0 resp1 s b with h | ⟨info, h⟩
      · rw [h] at hp2
        exact Or.inl hp2
      · rw [h] at hp2
        rcases List.mem_cons.mp hp2 with rfl | hp3
        · exact Or.inr rfl
        · exact Or.inl hp3
    · exact Or.inr hp2

/-- C7 counterexample: from an empty cache, the interleaving in which both
threads check the cache before either fetches makes both threads issue an
outbound lookup request for the same address — refuting that two
overlapping concurrent geo lookups never trigger two outbound requests. -/
theorem C7_counterexample_double_fetch :
    (geoSysRun "1.2.3.4" (some sampleGeoResp) (some sampleGeoResp)
      [false, true, false, true] (geoSysInit [])).t0.requested = true ∧
    (geoSysRun "1.2.3.4" (some sampleGeoResp) (some sampleGeoResp)
      [false, true, false, true] (geoSysInit [])).t1.requested = true := by
  refine ⟨by decide, by decide⟩

/-- C7 amended: the geo cache is not synchronised across the check and the
insert, so two overlapping lookups of the same uncached address may each
issue an outbound request; when one lookup completes successfully before
the other starts, the second is served from the cache with no outbound
request and returns the same info; and the cache is append-only under any
interleaving, each insert placing one whole entry for the looked-up
address (a concurrent reader observes either no entry or a complete
one). -/
theorem C7_amended_cache_unsynchronized (cache : GeoCache) (ip : String)
    (resp0 resp1 : Option GeoResp) :
    (cache.lookup ip = none → geoSuccess resp0 = true →
      (geoSysRun ip resp0 resp1 [false, false, true, true]
        (geoSysInit cache)).t0.requested = true ∧
      (geoSysRun ip resp0 resp1 [false, false, true, true]
        (geoSysInit cache)).t1.requested = false ∧
      (geoSysRun ip resp0 resp1 [false, false, true, true]
        (geoSysInit cache)).t1.result =
        (geoSysRun ip resp0 resp1 [false, false, true, true]
          (geoSysInit cache)).t0.result) ∧
    (∀ sched : List Bool,
      cache <:+ (geoSysRun ip resp0 resp1 sched (geoSysInit cache)).cache) ∧
    (∀ (sched : List Bool) (p : String × GeoInfo),
      p ∈ (geoSysRun ip resp0 resp1 sched (geoSysInit cache)).cache →
        p ∈ cache ∨ p.1 = ip) := by
  refine ⟨?_, ?_, ?_⟩
  · intro hmiss hs
    match resp0 with
    | none => simp [geoSuccess] at hs
    | some r0 =>
      simp [geoSysRun, geoSysStep, geoThreadStep, geoSysInit, hmiss, hs,
        List.lookup]
  · intro sched
    exact geoSysRun_append_only ip resp0 resp1 sched (geoSysInit cache)
  · intro sched p hp
    exact geoSysRun_entries ip resp0 resp1 sched (geoSysInit cache) p hp

/-- C7 amended witness: the sequential schedule over the empty cache with
a concrete successful response issues one request from the first thread
and none from the second, and the starting cache is a suffix of the final
one. -/
theorem C7_amended_cache_unsynchronized_witness :
    ((geoSysRun "1.2.3.4" (some sampleGeoResp) none [false, false, true, true]
        (geoSysInit [])).t0.requested = true ∧
      (geoSysRun "1.2.3.4" (some sampleGeoResp) none [false, false, true, true]
        (geoSysInit [])).t1.requested = false ∧
      (geoSysRun "1.2.3.4" (some sampleGeoResp) none [false, false, true, true]
        (geoSysInit [])).t1.result =
        (geoSysRun "1.2.3.4" (some sampleGeoResp) none [false, false, true, true]
          (geoSysInit [])).t0.result) ∧
    ([] : GeoCache) <:+ (geoSysRun "1.2.3.4" (some sampleGeoResp) none []
      (geoSysInit [])).cache :=
  ⟨(C7_amended_cache_unsynchronized [] "1.2.3.4" (some sampleGeoResp) none).1
      rfl rfl,
   (C7_amended_cache_unsynchronized [] "1.2.3.4" (some sampleGeoResp) none).2.1 []⟩

/-- C10: `save_proxies` writes exactly one line per record, each line the
record's endpoint string, in ascending lexicographic order of endpoint;
and it sorts the caller's record list in place — the post-state of the
argument list is the sorted permutation of it, visibly reordered for the
concrete two-record list given out of order. -/
theorem C10_save_sorts_in_place (working : List ProxyRecord) :
    (save_proxies working).2 = ((save_proxies working).1).map (fun r => r.proxy) ∧
    (save_proxies working).2.length = working.length ∧
    ((save_proxies working).1).Perm working ∧
    List.Sorted (fun a b : String => a ≤ b) (save_proxies working).2 ∧
    (save_proxies [sampleRecordB, sampleRecordA]).1 =
      [sampleRecordA, sampleRecordB] ∧
    [sampleRecordB, sampleRecordA] ≠ [sampleRecordA, sampleRecordB] := by
  refine ⟨rfl, ?_, ?_, ?_, ?_, by decide⟩
  · rw [save_proxies]
    simp only [List.length_map]
    exact (List.perm_insertionSort (fun a b : ProxyRecord => a.proxy ≤ b.proxy)
        working).length_eq
  · exact List.perm_insertionSort _ working
  · have hs := List.sorted_insertionSort
      (fun a b : ProxyRecord => a.proxy ≤ b.proxy) working
    rw [save_proxies]
    exact List.pairwise_map.mpr hs
  · have h : ¬(sampleRecordB.proxy ≤ sampleRecordA.proxy) := by
      rw [String.le_iff_toList_le]
      decide
    simp [save_proxies, List.insertionSort, List.orderedInsert, h]

end PartyProxy
